import Mathlib

/-!
Verification of the weather dashboard core (app.py): temperature
categorization, in-memory filtering and grouping over the loaded fact
table, summary metrics, connection configuration, connection lifecycle
of the query functions, and the memoizing result cache.

Numeric temperatures are embedded as rationals; the separate NaN value
of the host float type is modelled explicitly, since pd.isnull treats
NaN like a missing value.
-/

/-- A nullable float column value as pandas sees it: either NaN or an
ordinary finite number (embedded as a rational). The column value
itself is an `Option PyFloat`, `none` standing for None/NULL. -/
inductive PyFloat where
  | nan : PyFloat
  | val : ℚ → PyFloat
deriving DecidableEq

/-- pd.isnull on a nullable float: true for None and for NaN. -/
def pd_isnull : Option PyFloat → Bool
  | none => true
  | some .nan => true
  | some (.val _) => false

/-- Translation of `categorize_temperature` (app.py lines 65-75).
The first two arms are the `pd.isnull(temp)` guard, which is true for
None and for NaN; the remaining arms are the elif chain on the raw
value. -/
def categorize_temperature (temp : Option PyFloat) : String :=
  match temp with
  | none => "Unknown"
  | some .nan => "Unknown"
  | some (.val t) =>
    if t < 10 then "<10°C"
    else if 10 ≤ t ∧ t < 20 then "10–20°C"
    else if 20 ≤ t ∧ t < 30 then "20–30°C"
    else "≥30°C"

/-- The five possible bucket labels of `categorize_temperature`. -/
def temperature_buckets : List String :=
  ["Unknown", "<10°C", "10–20°C", "20–30°C", "≥30°C"]

/-- Position of a known bucket in the ordinal bucket ordering; the
four known buckets get 0..3, anything else 4. -/
def bucket_rank (s : String) : ℕ :=
  if s = "<10°C" then 0
  else if s = "10–20°C" then 1
  else if s = "20–30°C" then 2
  else if s = "≥30°C" then 3
  else 4

/-- One denormalized row of `load_weather_data` (app.py lines 44-63):
the star-schema join attaches date, city, country and condition
attributes to each temperature observation. -/
structure WeatherRow where
  temperature_id : ℕ
  temp : Option PyFloat
  full_date : String
  city_name : String
  country_name : String
  condition_name : String
deriving DecidableEq

/-- The derived column `df["temp_range"]` (app.py lines 99 and 128). -/
def temp_range (r : WeatherRow) : String :=
  categorize_temperature r.temp

/-- pandas `Series.isin` for one value: membership in the selection. -/
def isin (v : String) (sel : List String) : Bool :=
  decide (v ∈ sel)

/-- Translation of the boolean-mask filter `filtered_df`
(app.py lines 137-142): a row is kept iff each of its four categorical
attributes is in the corresponding multiselect selection. -/
def filtered_df (df : List WeatherRow)
    (selected_condition selected_country selected_city selected_ranges : List String) :
    List WeatherRow :=
  df.filter (fun r =>
    isin r.condition_name selected_condition &&
    isin r.country_name selected_country &&
    isin r.city_name selected_city &&
    isin (temp_range r) selected_ranges)

/-- pandas `Series.unique`: the distinct values of a column. The
multiselect defaults (app.py lines 132-135) are these full sets. -/
def unique_values (l : List String) : List String :=
  l.dedup

/-- The non-null temperature values of a row list; NaN counts as null,
exactly as pandas `mean` skips it. -/
def temp_values (rows : List WeatherRow) : List ℚ :=
  rows.filterMap (fun r =>
    match r.temp with
    | some (.val q) => some q
    | _ => none)

/-- pandas `Series.mean` with skip-null semantics: `none` when every
value of the group is null, otherwise the arithmetic mean of the
non-null values. -/
def mean_skipnull (rows : List WeatherRow) : Option ℚ :=
  let vs := temp_values rows
  if vs.isEmpty then none
  else some (vs.sum / (vs.length : ℚ))

/-- The rows of one group of a `groupby`. -/
def group_rows (df : List WeatherRow) (key : WeatherRow → String) (k : String) :
    List WeatherRow :=
  df.filter (fun r => key r == k)

/-- Lexicographic comparison of character lists, used to order string
group keys the way pandas `groupby` sorts them. -/
def charListLe : List Char → List Char → Bool
  | [], _ => true
  | _ :: _, [] => false
  | a :: as, b :: bs => if a < b then true else if b < a then false else charListLe as bs

/-- Lexicographic string comparison (ascending group-key order). -/
def str_le (a b : String) : Bool :=
  charListLe a.data b.data

/-- Insert an element into a list ordered by the comparison `le`. -/
def insertLe (le : α → α → Bool) (a : α) : List α → List α
  | [] => [a]
  | b :: l => if le a b then a :: b :: l else b :: insertLe le a l

/-- Insertion sort by the comparison `le`; realizes the sort steps of
pandas `groupby` and `sort_values`. -/
def sortLe (le : α → α → Bool) : List α → List α
  | [] => []
  | a :: l => insertLe le a (sortLe le l)

/-- The distinct group keys in ascending order, as pandas `groupby`
with default sorting produces them. -/
def groupby_keys (df : List WeatherRow) (key : WeatherRow → String) : List String :=
  sortLe str_le (df.map key).dedup

/-- `df.groupby(key)[ "temp"].mean().reset_index()`: one (key, mean)
pair per distinct key, keys ascending, mean skipping nulls. -/
def groupby_mean (df : List WeatherRow) (key : WeatherRow → String) :
    List (String × Option ℚ) :=
  (groupby_keys df key).map (fun k => (k, mean_skipnull (group_rows df key k)))

/-- Descending-by-mean comparison used by
`sort_values(by="temp", ascending=False)`; an undefined (all-null)
mean sorts last, as pandas places NaN last. -/
def meanAfter : Option ℚ → Option ℚ → Bool
  | some x, some y => decide (y ≤ x)
  | some _, none => true
  | none, some _ => false
  | none, none => true

/-- The pair comparison for sorting (key, mean) rows descending by
mean. -/
def mean_desc (a b : String × Option ℚ) : Bool :=
  meanAfter a.2 b.2

/-- Translation of `temp_by_city` (app.py lines 102-107): group by
city, take the mean temperature, sort descending by mean. -/
def temp_by_city (df : List WeatherRow) : List (String × Option ℚ) :=
  sortLe mean_desc (groupby_mean df (fun r => r.city_name))

/-- Translation of `temp_over_time` (app.py lines 114-118): group by
date and take the mean temperature; no further sort, so the rows stay
in ascending key order. -/
def temp_over_time (df : List WeatherRow) : List (String × Option ℚ) :=
  groupby_mean df (fun r => r.full_date)

/-- pandas `Series.nunique` on a string column. -/
def nunique (l : List String) : ℕ :=
  l.dedup.length

/-- The first summary metric (app.py line 146): distinct city count of
the filtered rows. -/
def metric_city_count (df : List WeatherRow) : ℕ :=
  nunique (df.map (fun r => r.city_name))

/-- The second summary metric (app.py line 147): row count of the
filtered rows. -/
def metric_record_count (df : List WeatherRow) : ℕ :=
  df.length

/-- Round to the nearest integer, ties to the even integer, as the
host float formatting does. -/
def roundHalfEven (q : ℚ) : ℤ :=
  let f := ⌊q⌋
  let frac := q - f
  if frac < 1 / 2 then f
  else if 1 / 2 < frac then f + 1
  else if f % 2 = 0 then f else f + 1

/-- Fixed-point rendering with two decimal places, the shape of the
format `:.2f` applied to a finite value. -/
def formatRat2 (q : ℚ) : String :=
  let c : ℤ := roundHalfEven (q * 100)
  let a : ℕ := c.natAbs
  (if c < 0 then "-" else "") ++ toString (a / 100) ++ "." ++
    (if a % 100 < 10 then "0" else "") ++ toString (a % 100)

/-- The third summary metric (app.py line 148):
`f"..." if not filtered_df.empty else "–"`. On a non-empty row set
whose temperatures are all null the mean is NaN and the format renders
the string "nan". -/
def metric_avg_temp (df : List WeatherRow) : String :=
  if df.isEmpty then "–"
  else
    match mean_skipnull df with
    | none => "nan"
    | some q => formatRat2 q

/-- The connection parameter record `DB_CONFIG` (app.py lines 15-21).
Every field except the port is the raw result of `os.getenv` and can
be null; the port defaults to 5432 when the variable is absent. -/
structure DBConfig where
  host : Option String
  port : ℤ
  user : Option String
  password : Option String
  dbname : Option String
deriving DecidableEq

/-- Building `DB_CONFIG` from the environment (app.py lines 15-21).
Only `int(os.getenv("DB_PORT", 5432))` can fail, with a ValueError on
a present but non-integer DB_PORT; missing host, user, password and
database name are stored as null without any check. -/
def mkDBConfig (env : String → Option String) : Except String DBConfig :=
  match env "DB_PORT" with
  | none =>
    .ok ⟨env "DB_HOST", 5432, env "DB_USER", env "DB_PASSWORD", env "DB_NAME"⟩
  | some s =>
    match s.toInt? with
    | none => .error "ValueError: invalid literal for int with base 10"
    | some p =>
      .ok ⟨env "DB_HOST", p, env "DB_USER", env "DB_PASSWORD", env "DB_NAME"⟩

/-- The externally visible first step of a query function. -/
inductive WarehouseAction where
  | connectTo : DBConfig → WarehouseAction
deriving DecidableEq

/-- What `get_table_names` (app.py line 25) does with the environment
before anything else: it hands whatever config was built, missing
values included, to `psycopg2.connect`. The only error surfaced before
the connection attempt is the DB_PORT parse error raised while the
module-level `DB_CONFIG` is built. -/
def get_table_names_model (env : String → Option String) :
    Except String WarehouseAction :=
  (mkDBConfig env).map (fun cfg => .connectTo cfg)

/-- Connection lifecycle of `get_table_names` (app.py lines 24-35),
tracking the number of open connections. `psycopg2.connect` opens one;
when the executed statement raises, the exception propagates out of
the function body — there is no try/finally — so `conn.close()` on
line 34 is never reached; on the normal path the connection is closed
before the return. -/
def get_table_names_conns (query_raises : Bool)
    (tables : List (String × String)) (open0 : ℕ) :
    Except String (List (String × String)) × ℕ :=
  let conns := open0 + 1
  if query_raises then (.error "psycopg2.Error", conns)
  else (.ok tables, conns - 1)

/-- Connection lifecycle of `get_table_data` (app.py lines 38-42):
connect, run `pd.read_sql_query`, close, return — again with no
try/finally around the query. -/
def get_table_data_conns (schema table : String) (query_raises : Bool)
    (df : List (List String)) (open0 : ℕ) :
    Except String (List (List String)) × ℕ :=
  let conns := open0 + 1
  if query_raises then (.error "psycopg2.Error", conns)
  else (.ok df, conns - 1)

/-- Connection lifecycle of `load_weather_data` (app.py lines 45-63):
same shape as `get_table_data`, returning the joined fact rows. -/
def load_weather_data_conns (query_raises : Bool)
    (df : List WeatherRow) (open0 : ℕ) :
    Except String (List WeatherRow) × ℕ :=
  let conns := open0 + 1
  if query_raises then (.error "psycopg2.Error", conns)
  else (.ok df, conns - 1)

/-- Modelled from the spec: the `st.cache_data` decorator is external
library code, so its memoization policy is taken from the spec
(section 4.5): a per-process cache keyed by the argument tuple,
holding the computed result and counting warehouse round trips. -/
structure CacheState (κ ρ : Type) where
  entries : List (κ × ρ)
  trips : ℕ

/-- The empty cache a fresh process starts with. -/
def empty_cache {κ ρ : Type} : CacheState κ ρ :=
  ⟨[], 0⟩

/-- Look a key up in the cache entries. -/
def cache_lookup {κ ρ : Type} [DecidableEq κ] (k : κ) : List (κ × ρ) → Option ρ
  | [] => none
  | (k2, v) :: rest => if k = k2 then some v else cache_lookup k rest

/-- Modelled from the spec: one call through the `st.cache_data`
wrapper. A hit returns the stored result without touching the
warehouse; a miss computes, stores under the key, and counts one round
trip. -/
def cached_call {κ ρ : Type} [DecidableEq κ] (compute : κ → ρ) (k : κ)
    (s : CacheState κ ρ) : ρ × CacheState κ ρ :=
  match cache_lookup k s.entries with
  | some v => (v, s)
  | none =>
    let v := compute k
    (v, ⟨(k, v) :: s.entries, s.trips + 1⟩)

/-- The cached `get_table_data` (app.py lines 37-42): keyed by the
(schema, table) argument tuple; `wh` is the warehouse round trip. -/
def get_table_data_cached (wh : String × String → List (List String))
    (k : String × String) (s : CacheState (String × String) (List (List String))) :
    List (List String) × CacheState (String × String) (List (List String)) :=
  cached_call wh k s

/-- The cached `load_weather_data` (app.py lines 44-63): no arguments,
so the key is the empty tuple. -/
def load_weather_data_cached (wh : Unit → List WeatherRow) (k : Unit)
    (s : CacheState Unit (List WeatherRow)) :
    List WeatherRow × CacheState Unit (List WeatherRow) :=
  cached_call wh k s

/-- The three-row chart example: city A at 10 degrees, city A with a
null temperature, city B at 20 degrees. -/
def example_chart_rows : List WeatherRow :=
  [⟨1, some (.val 10), "2024-01-01", "A", "X", "clear"⟩,
   ⟨2, none, "2024-01-01", "A", "X", "clear"⟩,
   ⟨3, some (.val 20), "2024-01-01", "B", "X", "clear"⟩]

/-- A row set whose single group has only null temperatures. -/
def all_null_rows : List WeatherRow :=
  [⟨1, none, "2024-01-01", "C", "X", "clear"⟩,
   ⟨2, some .nan, "2024-01-02", "C", "X", "clear"⟩]

/-- A single concrete row used by witnesses. -/
def row_fifteen : WeatherRow :=
  ⟨1, some (.val 15), "2024-01-01", "A", "X", "clear"⟩

/-- A concrete warehouse double for the cache witnesses. -/
def example_wh (p : String × String) : List (List String) :=
  [[p.1, p.2]]

/-! ## Helper lemmas -/

/-- The elif chain of `categorize_temperature` on a finite value,
rewritten with the redundant lower-bound conjuncts dropped. -/
theorem categorize_val_eq (t : ℚ) :
    categorize_temperature (some (.val t)) =
      if t < 10 then "<10°C"
      else if t < 20 then "10–20°C"
      else if t < 30 then "20–30°C"
      else "≥30°C" := by
  by_cases h1 : t < 10
  · simp [categorize_temperature, h1]
  · have h10 : (10 : ℚ) ≤ t := le_of_not_lt h1
    by_cases h2 : t < 20
    · simp [categorize_temperature, h1, h2, h10]
    · have h20 : (20 : ℚ) ≤ t := le_of_not_lt h2
      by_cases h3 : t < 30
      · simp [categorize_temperature, h1, h2, h3, h20]
      · simp [categorize_temperature, h1, h2, h3]

theorem mem_insertLe {le : α → α → Bool} {a x : α} {l : List α} :
    x ∈ insertLe le a l ↔ x = a ∨ x ∈ l := by
  induction l with
  | nil => simp [insertLe]
  | cons b l ih =>
    by_cases h : le a b
    · simp only [insertLe, if_pos h, List.mem_cons]
    · simp only [insertLe, if_neg h, List.mem_cons, ih]
      tauto

theorem pairwise_insertLe {le : α → α → Bool}
    (htot : ∀ a b, le a b = true ∨ le b a = true)
    (htrans : ∀ a b c, le a b = true → le b c = true → le a c = true)
    (a : α) (l : List α) (hl : l.Pairwise (fun x y => le x y = true)) :
    (insertLe le a l).Pairwise (fun x y => le x y = true) := by
  induction l with
  | nil => simp [insertLe]
  | cons b l ih =>
    rcases List.pairwise_cons.mp hl with ⟨hb, hl2⟩
    by_cases h : le a b = true
    · rw [insertLe, if_pos h]
      refine List.pairwise_cons.mpr ⟨?_, hl⟩
      intro x hx
      rcases List.mem_cons.mp hx with rfl | hx2
      · exact h
      · exact htrans a b x h (hb x hx2)
    · rw [insertLe, if_neg h]
      refine List.pairwise_cons.mpr ⟨?_, ih hl2⟩
      intro x hx
      rcases mem_insertLe.mp hx with rfl | hx2
      · rcases htot x b with h2 | h2
        · exact absurd h2 h
        · exact h2
      · exact hb x hx2

theorem pairwise_sortLe {le : α → α → Bool}
    (htot : ∀ a b, le a b = true ∨ le b a = true)
    (htrans : ∀ a b c, le a b = true → le b c = true → le a c = true)
    (l : List α) :
    (sortLe le l).Pairwise (fun x y => le x y = true) := by
  induction l with
  | nil => simp [sortLe]
  | cons a l ih => exact pairwise_insertLe htot htrans a _ ih

theorem charListLe_total (a : List Char) : ∀ b, charListLe a b = true ∨ charListLe b a = true := by
  induction a with
  | nil => intro b; left; rfl
  | cons x xs ih =>
    intro b
    cases b with
    | nil => right; rfl
    | cons y ys =>
      rcases lt_trichotomy x y with h | h | h
      · left; simp [charListLe, h]
      · subst h
        rcases ih ys with h2 | h2
        · left; simp [charListLe, lt_irrefl, h2]
        · right; simp [charListLe, lt_irrefl, h2]
      · right; simp [charListLe, h]

theorem charListLe_trans (a : List Char) :
    ∀ b c, charListLe a b = true → charListLe b c = true → charListLe a c = true := by
  induction a with
  | nil => intro b c _ _; rfl
  | cons x xs ih =>
    intro b c hab hbc
    cases b with
    | nil => simp [charListLe] at hab
    | cons y ys =>
      cases c with
      | nil => simp [charListLe] at hbc
      | cons z zs =>
        rcases lt_trichotomy x y with hxy | hxy | hxy
        · rcases lt_trichotomy y z with hyz | hyz | hyz
          · simp [charListLe, lt_trans hxy hyz]
          · subst hyz; simp [charListLe, hxy]
          · simp [charListLe, not_lt.mpr (le_of_lt hyz), hyz] at hbc
        · subst hxy
          simp only [charListLe, lt_irrefl, if_false] at hab
          rcases lt_trichotomy x z with hyz | hyz | hyz
          · simp [charListLe, hyz]
          · subst hyz
            simp only [charListLe, lt_irrefl, if_false] at hbc ⊢
            exact ih ys zs hab hbc
          · simp [charListLe, not_lt.mpr (le_of_lt hyz), hyz] at hbc
        · simp [charListLe, not_lt.mpr (le_of_lt hxy), hxy] at hab

theorem str_le_total (a b : String) : str_le a b = true ∨ str_le b a = true :=
  charListLe_total a.data b.data

theorem str_le_trans (a b c : String) :
    str_le a b = true → str_le b c = true → str_le a c = true :=
  charListLe_trans a.data b.data c.data

theorem meanAfter_total (a b : Option ℚ) : meanAfter a b = true ∨ meanAfter b a = true := by
  cases a with
  | none => cases b <;> simp [meanAfter]
  | some x =>
    cases b with
    | none => simp [meanAfter]
    | some y => simpa [meanAfter] using le_total y x

theorem meanAfter_trans (a b c : Option ℚ) :
    meanAfter a b = true → meanAfter b c = true → meanAfter a c = true := by
  cases a <;> cases b <;> cases c <;> simp [meanAfter]
  exact fun h1 h2 => le_trans h2 h1

theorem mean_desc_total (a b : String × Option ℚ) :
    mean_desc a b = true ∨ mean_desc b a = true :=
  meanAfter_total a.2 b.2

theorem mean_desc_trans (a b c : String × Option ℚ) :
    mean_desc a b = true → mean_desc b c = true → mean_desc a c = true :=
  meanAfter_trans a.2 b.2 c.2

/-! ## Claim theorems -/

/-- Claim C1: `categorize_temperature` returns "Unknown" when temp is
null, "<10°C" when temp < 10, "10–20°C" on [10, 20), "20–30°C" on
[20, 30), "≥30°C" at or above 30; in particular at None, 9.999, 10.0,
29.999 and 30.0 it returns "Unknown", "<10°C", "10–20°C", "20–30°C"
and "≥30°C" respectively. -/
theorem claim_C1_categorize_boundaries :
    categorize_temperature none = "Unknown"
    ∧ (∀ q : ℚ, q < 10 → categorize_temperature (some (.val q)) = "<10°C")
    ∧ (∀ q : ℚ, 10 ≤ q → q < 20 → categorize_temperature (some (.val q)) = "10–20°C")
    ∧ (∀ q : ℚ, 20 ≤ q → q < 30 → categorize_temperature (some (.val q)) = "20–30°C")
    ∧ (∀ q : ℚ, 30 ≤ q → categorize_temperature (some (.val q)) = "≥30°C")
    ∧ categorize_temperature (some (.val 9.999)) = "<10°C"
    ∧ categorize_temperature (some (.val 10)) = "10–20°C"
    ∧ categorize_temperature (some (.val 29.999)) = "20–30°C"
    ∧ categorize_temperature (some (.val 30)) = "≥30°C" := by
  have h1 : ∀ q : ℚ, q < 10 → categorize_temperature (some (.val q)) = "<10°C" := by
    intro q h
    rw [categorize_val_eq, if_pos h]
  have h2 : ∀ q : ℚ, 10 ≤ q → q < 20 → categorize_temperature (some (.val q)) = "10–20°C" := by
    intro q ha hb
    rw [categorize_val_eq, if_neg (not_lt.mpr (by linarith)), if_pos hb]
  have h3 : ∀ q : ℚ, 20 ≤ q → q < 30 → categorize_temperature (some (.val q)) = "20–30°C" := by
    intro q ha hb
    rw [categorize_val_eq, if_neg (not_lt.mpr (by linarith)),
      if_neg (not_lt.mpr (by linarith)), if_pos hb]
  have h4 : ∀ q : ℚ, 30 ≤ q → categorize_temperature (some (.val q)) = "≥30°C" := by
    intro q ha
    rw [categorize_val_eq, if_neg (not_lt.mpr (by linarith)),
      if_neg (not_lt.mpr (by linarith)), if_neg (not_lt.mpr (by linarith))]
  exact ⟨rfl, h1, h2, h3, h4, h1 _ (by norm_num), h2 _ (by norm_num) (by norm_num),
    h3 _ (by norm_num) (by norm_num), h4 _ (by norm_num)⟩

/-- Witness for C1: the below-10 clause applied at 5. -/
theorem claim_C1_witness :
    (5 : ℚ) < 10 ∧ categorize_temperature (some (.val 5)) = "<10°C" :=
  ⟨by decide, claim_C1_categorize_boundaries.2.1 5 (by decide)⟩

/-- Claim C2: `categorize_temperature` is total, always returns a
member of the five-bucket list (whose labels are pairwise distinct, so
exactly one bucket applies), and on finite non-null inputs the bucket
rank is monotone in the temperature. -/
theorem claim_C2_total_monotonic :
    (∀ t : Option PyFloat, categorize_temperature t ∈ temperature_buckets)
    ∧ temperature_buckets.Nodup
    ∧ (∀ q1 q2 : ℚ, q1 < q2 →
        bucket_rank (categorize_temperature (some (.val q1))) ≤
          bucket_rank (categorize_temperature (some (.val q2)))) := by
  refine ⟨?_, by decide, ?_⟩
  · intro t
    match t with
    | none => decide
    | some .nan => decide
    | some (.val q) =>
      rw [categorize_val_eq]
      split_ifs <;> decide
  · intro q1 q2 h
    rw [categorize_val_eq, categorize_val_eq]
    split_ifs <;> first | decide | linarith

/-- Witness for C2: monotonicity applied at 5 < 25. -/
theorem claim_C2_witness :
    bucket_rank (categorize_temperature (some (.val 5))) ≤
      bucket_rank (categorize_temperature (some (.val 25))) :=
  claim_C2_total_monotonic.2.2 5 25 (by decide)

/-- Claim C3: a row survives `filtered_df` iff each of its four
categorical attributes is in the corresponding selection set, and an
empty selection on any one dimension gives the empty result (with no
error possible: the filter is a total function). -/
theorem claim_C3_filter_membership :
    (∀ (df : List WeatherRow) (sc sk sy sr : List String) (r : WeatherRow),
        r ∈ filtered_df df sc sk sy sr ↔
          r ∈ df ∧ r.condition_name ∈ sc ∧ r.country_name ∈ sk ∧
            r.city_name ∈ sy ∧ temp_range r ∈ sr)
    ∧ (∀ (df : List WeatherRow) (sc sk sy sr : List String),
        sc = [] ∨ sk = [] ∨ sy = [] ∨ sr = [] → filtered_df df sc sk sy sr = []) := by
  constructor
  · intro df sc sk sy sr r
    simp [filtered_df, List.mem_filter, isin, and_assoc]
  · intro df sc sk sy sr h
    apply List.filter_eq_nil_iff.mpr
    intro r hr
    rcases h with rfl | rfl | rfl | rfl <;> simp [isin]

/-- Witness for C3: an empty condition selection empties the result. -/
theorem claim_C3_witness :
    filtered_df [row_fifteen] [] ["X"] ["A"] ["10–20°C"] = [] :=
  claim_C3_filter_membership.2 [row_fifteen] [] ["X"] ["A"] ["10–20°C"] (Or.inl rfl)

/-- Claim C4: filtering with each selection equal to the full set of
distinct values present in the rows (the multiselect defaults) returns
the rows unchanged. -/
theorem claim_C4_filter_identity (df : List WeatherRow) :
    filtered_df df
      (unique_values (df.map (fun r => r.condition_name)))
      (unique_values (df.map (fun r => r.country_name)))
      (unique_values (df.map (fun r => r.city_name)))
      (unique_values (df.map (fun r => temp_range r))) = df := by
  apply List.filter_eq_self.mpr
  intro r hr
  simp only [isin, unique_values, Bool.and_eq_true, decide_eq_true_eq, List.mem_dedup,
    List.mem_map]
  exact ⟨⟨⟨⟨r, hr, rfl⟩, ⟨r, hr, rfl⟩⟩, ⟨r, hr, rfl⟩⟩, ⟨r, hr, rfl⟩⟩

/-- Claim C10: the isnull guard treats NaN like None, so a NaN
temperature is bucketed "Unknown" and in particular does not fall into
the final "≥30°C" else-branch; in general the result is "Unknown"
exactly when pd.isnull is true. -/
theorem claim_C10_nan_unknown :
    categorize_temperature (some PyFloat.nan) = "Unknown"
    ∧ categorize_temperature (some PyFloat.nan) ≠ "≥30°C"
    ∧ (∀ t, categorize_temperature t = "Unknown" ↔ pd_isnull t = true) := by
  refine ⟨rfl, by decide, ?_⟩
  intro t
  match t with
  | none => simp [categorize_temperature, pd_isnull]
  | some .nan => simp [categorize_temperature, pd_isnull]
  | some (.val q) =>
    simp only [pd_isnull, Bool.false_eq_true, iff_false]
    rw [categorize_val_eq]
    split_ifs <;> decide

/-- Unfolding equation of `mean_skipnull`. -/
theorem mean_skipnull_eq (rows : List WeatherRow) :
    mean_skipnull rows =
      if (temp_values rows).isEmpty then none
      else some ((temp_values rows).sum / ((temp_values rows).length : ℚ)) := rfl

/-- Claim C5: the city aggregation is ordered descending by group
mean, the date aggregation is ordered ascending by key; over the rows
[(A, 10), (A, null), (B, 20)] grouped by city the result is B before A
with the mean of A equal to 10 (the null excluded, so not 5); a group
whose temperatures are all null gets `none` as its mean (rendered as a
placeholder), not zero. -/
theorem claim_C5_group_mean :
    (∀ df : List WeatherRow,
        (temp_by_city df).Pairwise (fun a b => mean_desc a b = true))
    ∧ (∀ df : List WeatherRow,
        ((temp_over_time df).map Prod.fst).Pairwise (fun a b => str_le a b = true))
    ∧ temp_by_city example_chart_rows = [("B", some 20), ("A", some 10)]
    ∧ temp_by_city all_null_rows = [("C", none)] := by
  refine ⟨?_, ?_, ?_, ?_⟩
  · intro df
    exact pairwise_sortLe mean_desc_total mean_desc_trans _
  · intro df
    have hmap : (temp_over_time df).map Prod.fst = groupby_keys df (fun r => r.full_date) := by
      simp [temp_over_time, groupby_mean, List.map_map, Function.comp_def]
    rw [hmap]
    exact pairwise_sortLe str_le_total str_le_trans _
  · have hk : groupby_keys example_chart_rows (fun r => r.city_name) = ["A", "B"] := by
      decide
    have htA : temp_values (group_rows example_chart_rows (fun r => r.city_name) "A") = [10] := by
      decide
    have htB : temp_values (group_rows example_chart_rows (fun r => r.city_name) "B") = [20] := by
      decide
    have hA : mean_skipnull (group_rows example_chart_rows (fun r => r.city_name) "A")
        = some 10 := by
      rw [mean_skipnull_eq, htA]; norm_num
    have hB : mean_skipnull (group_rows example_chart_rows (fun r => r.city_name) "B")
        = some 20 := by
      rw [mean_skipnull_eq, htB]; norm_num
    simp only [temp_by_city, groupby_mean, hk, List.map_cons, List.map_nil, hA, hB]
    decide
  · have hk : groupby_keys all_null_rows (fun r => r.city_name) = ["C"] := by decide
    have ht : temp_values (group_rows all_null_rows (fun r => r.city_name) "C") = [] := by
      decide
    have hC : mean_skipnull (group_rows all_null_rows (fun r => r.city_name) "C") = none := by
      rw [mean_skipnull_eq, ht]; rfl
    simp only [temp_by_city, groupby_mean, hk, List.map_cons, List.map_nil, hC]
    decide

/-- Claim C6: on the empty filtered set the summary metrics are city
count 0, record count 0, and the placeholder string "–" for the mean
metric (not a NaN rendering, and no exception is possible: the metric
is a total function); on a non-empty set with a defined mean the
metric is that mean formatted to two decimal places, and the formatter
indeed renders two decimals, e.g. 31/2 as "15.50" and 15 as "15.00". -/
theorem claim_C6_summary_metrics :
    (metric_city_count [] = 0 ∧ metric_record_count [] = 0
      ∧ metric_avg_temp [] = "–" ∧ metric_avg_temp [] ≠ "nan")
    ∧ (∀ (df : List WeatherRow) (q : ℚ), df ≠ [] → mean_skipnull df = some q →
        metric_avg_temp df = formatRat2 q)
    ∧ formatRat2 (31 / 2) = "15.50"
    ∧ formatRat2 15 = "15.00" := by
  refine ⟨⟨rfl, rfl, rfl, by decide⟩, ?_, ?_, ?_⟩
  · intro df q hne hm
    have hb : df.isEmpty = false := List.isEmpty_eq_false.mpr hne
    simp [metric_avg_temp, hb, hm]
  · have h : roundHalfEven ((31 : ℚ) / 2 * 100) = 1550 := by norm_num [roundHalfEven]
    simp only [formatRat2, h]
    decide
  · have h : roundHalfEven ((15 : ℚ) * 100) = 1500 := by norm_num [roundHalfEven]
    simp only [formatRat2, h]
    decide

/-- Witness for C6: the metric over one row at temperature 15 is the
formatted mean. -/
theorem claim_C6_witness :
    metric_avg_temp [row_fifteen] = formatRat2 15 :=
  claim_C6_summary_metrics.2.1 [row_fifteen] 15 (by simp)
    (by simp [mean_skipnull_eq, temp_values, row_fifteen])

/-- Counterexample to C7: with every connection variable absent from
the environment, building DB_CONFIG raises no configuration error — it
succeeds with null host, user, password and database name — and
get_table_names proceeds to attempt a connection with exactly that
null-valued config, contrary to the claimed fail-fast behavior. -/
theorem claim_C7_counterexample :
    mkDBConfig (fun _ => none) = .ok ⟨none, 5432, none, none, none⟩
    ∧ get_table_names_model (fun _ => none) =
        .ok (.connectTo ⟨none, 5432, none, none, none⟩) :=
  ⟨rfl, rfl⟩

/-- Claim C7 as amended: a missing DB_HOST, DB_USER, DB_PASSWORD or
DB_NAME does not fail fast; DB_CONFIG is built with null values and
the query function proceeds to attempt the connection with them. The
only configuration error surfaced before a connection attempt is the
ValueError for a present but non-integer DB_PORT. -/
theorem claim_C7_no_fail_fast :
    (∀ env : String → Option String, env "DB_PORT" = none →
        mkDBConfig env =
          .ok ⟨env "DB_HOST", 5432, env "DB_USER", env "DB_PASSWORD", env "DB_NAME"⟩
        ∧ get_table_names_model env =
            .ok (.connectTo
              ⟨env "DB_HOST", 5432, env "DB_USER", env "DB_PASSWORD", env "DB_NAME"⟩))
    ∧ (∀ (env : String → Option String) (s : String), env "DB_PORT" = some s →
        s.toInt? = none →
        mkDBConfig env = .error "ValueError: invalid literal for int with base 10") := by
  constructor
  · intro env h
    constructor
    · simp [mkDBConfig, h]
    · simp [get_table_names_model, mkDBConfig, h, Except.map]
  · intro env s h hs
    simp [mkDBConfig, h, hs]

/-- Witness for the amended C7 at the all-empty environment. -/
theorem claim_C7_witness :
    get_table_names_model (fun _ => none) =
      .ok (.connectTo ⟨none, 5432, none, none, none⟩) :=
  (claim_C7_no_fail_fast.1 (fun _ => none) rfl).2

/-- Counterexample to C8: when the executed statement raises, each
query function exits with one more open connection than it started
with — the close call is skipped, so the connection is not released on
the error path. -/
theorem claim_C8_counterexample :
    (get_table_names_conns true [] 0).2 = 1
    ∧ (get_table_data_conns "dim" "city" true [] 0).2 = 1
    ∧ (load_weather_data_conns true [] 0).2 = 1 :=
  ⟨rfl, rfl, rfl⟩

/-- Claim C8 as amended: each query function closes its connection on
the normal return path (net open connections unchanged), but on the
error path the exception propagates before the close call and the
connection leaks (net open connections one higher than before). -/
theorem claim_C8_connection_release :
    ∀ (raises : Bool) (tables : List (String × String)) (schema table : String)
      (tdf : List (List String)) (wdf : List WeatherRow) (n : ℕ),
      (get_table_names_conns raises tables n).2 = (if raises then n + 1 else n)
      ∧ (get_table_data_conns schema table raises tdf n).2 = (if raises then n + 1 else n)
      ∧ (load_weather_data_conns raises wdf n).2 = (if raises then n + 1 else n) := by
  intro raises tables schema table tdf wdf n
  cases raises <;>
    simp [get_table_names_conns, get_table_data_conns, load_weather_data_conns]

/-- Claim C9: within one process lifetime (one cache state threaded
through the calls), calling a cached query function twice with
identical arguments issues exactly one warehouse round trip and both
calls return value-equal results, while calling it with two different
argument tuples issues two round trips, each cached under its own
key. -/
theorem claim_C9_cache_memoizes :
    (∀ (wh : String × String → List (List String)) (k : String × String),
        (get_table_data_cached wh k empty_cache).1 =
          (get_table_data_cached wh k (get_table_data_cached wh k empty_cache).2).1
        ∧ (get_table_data_cached wh k (get_table_data_cached wh k empty_cache).2).2.trips = 1)
    ∧ (∀ (wh : String × String → List (List String)) (k1 k2 : String × String),
        k1 ≠ k2 →
        (get_table_data_cached wh k2 (get_table_data_cached wh k1 empty_cache).2).2.trips = 2
        ∧ cache_lookup k1
            (get_table_data_cached wh k2
              (get_table_data_cached wh k1 empty_cache).2).2.entries = some (wh k1)
        ∧ cache_lookup k2
            (get_table_data_cached wh k2
              (get_table_data_cached wh k1 empty_cache).2).2.entries = some (wh k2))
    ∧ (∀ wh : Unit → List WeatherRow,
        (load_weather_data_cached wh () empty_cache).1 =
          (load_weather_data_cached wh ()
            (load_weather_data_cached wh () empty_cache).2).1
        ∧ (load_weather_data_cached wh ()
            (load_weather_data_cached wh () empty_cache).2).2.trips = 1) := by
  refine ⟨?_, ?_, ?_⟩
  · intro wh k
    simp [get_table_data_cached, cached_call, cache_lookup, empty_cache]
  · intro wh k1 k2 hne
    have h21 : ¬(k2 = k1) := fun e => hne e.symm
    simp [get_table_data_cached, cached_call, cache_lookup, empty_cache, hne, h21]
  · intro wh
    simp [load_weather_data_cached, cached_call, cache_lookup, empty_cache]

/-- Witness for C9: two distinct table keys issue two round trips. -/
theorem claim_C9_witness :
    (get_table_data_cached example_wh ("fact", "temperature")
      (get_table_data_cached example_wh ("dim", "city") empty_cache).2).2.trips = 2 :=
  (claim_C9_cache_memoizes.2.1 example_wh ("dim", "city") ("fact", "temperature")
    (by decide)).1
